import Mathlib

/-!
Rancher webhook: global-role-binding validator and webhook registration.

A shallow embedding of `pkg/auth/globarolebinding.go` and
`pkg/admission/server.go`.

Conventions of the embedding:

* a Go pointer or interface value that may be `nil` is an `Option`;
* a Go `error` is an `Option String` (`none` is `nil`);
* a Go map is an `Option` of an association list with pairwise distinct keys
  (`none` is the `nil` map); the association list may be stored in any order,
  which stands for Go's unspecified iteration order;
* a run-time panic (failed type assertion, nil dereference) is the `panic`
  constructor of `Outcome`;
* collaborators whose code is outside these two files (the request decoders, the
  global-role cache, the escalation checker, the object applier) are
  parameters; calls to them are recorded in explicit call logs.
-/

set_option linter.dupNamespace false

namespace Webhook

/-! ## Go run-time values -/

/-- Go `error`: `none` is the `nil` error, `some msg` an error with message `msg`. -/
abbrev GoError := Option String

/-- Result of running Go code that may panic. -/
inductive Outcome (α : Type) where
  | panic : Outcome α
  | ret : α → Outcome α
deriving DecidableEq, Repr

/-- Apply a function to the returned value, keeping a panic. -/
def Outcome.map {α β : Type} (f : α → β) : Outcome α → Outcome β
  | .panic => .panic
  | .ret a => .ret (f a)

/-- Go `map[string]V`: `none` is the nil map, `some es` holds the entries. -/
abbrev GoMap (V : Type) := Option (List (String × V))

/-- Entries of a Go map (a nil map ranges over nothing). -/
def GoMap.entries {V : Type} (m : GoMap V) : List (String × V) :=
  m.getD []

/-- Key list of a Go map. -/
def GoMap.keys {V : Type} (m : GoMap V) : List String :=
  m.entries.map Prod.fst

/-- Map read `m[k]` in its two-result form: the value and whether `k` is present. -/
def GoMap.get {V : Type} (m : GoMap V) (k : String) : Option V :=
  (m.entries.find? (fun e => e.1 == k)).map Prod.snd

/-- Go maps have each key once. -/
def GoMap.WF {V : Type} (m : GoMap V) : Prop :=
  m.keys.Nodup

instance {V : Type} (m : GoMap V) : Decidable m.WF :=
  inferInstanceAs (Decidable m.keys.Nodup)

/-- Entry update behind `m[k] = v`: overwrite the entry of `k`, or add one. -/
def setEntry {V : Type} (k : String) (v : V) : List (String × V) → List (String × V)
  | [] => [(k, v)]
  | e :: es => if e.1 == k then (k, v) :: es else e :: setEntry k v es

/-! ## Kubernetes and Rancher types used by the validator -/

/-- Type `rbacv1.PolicyRule`. -/
structure PolicyRule where
  Verbs : List String
  APIGroups : List String
  Resources : List String
  ResourceNames : List String
  NonResourceURLs : List String
deriving DecidableEq, Repr

/-- Type `rancherv3.GlobalRole` (the fields the validator reads). -/
structure GlobalRole where
  Name : String
  DisplayName : String
  Rules : List PolicyRule
deriving DecidableEq, Repr

/-- Type `rancherv3.GlobalRoleBinding`. -/
structure GlobalRoleBinding where
  Name : String
  UserName : String
  GroupPrincipalName : String
  GlobalRoleName : String
deriving DecidableEq, Repr

/-- Type `authenticationv1.ExtraValue`, a `[]string`. -/
abbrev ExtraValue := List String

/-- Type `authenticationv1.UserInfo`. -/
structure UserInfo where
  Username : String
  UID : String
  Groups : List String
  Extra : GoMap ExtraValue
deriving DecidableEq, Repr

/-- Type `admissionv1.Operation`, a string. -/
abbrev Operation := String

/-- Constant `admissionv1.Create`. -/
def Create : Operation := "CREATE"
/-- Constant `admissionv1.Update`. -/
def Update : Operation := "UPDATE"
/-- Constant `admissionv1.Delete`. -/
def Delete : Operation := "DELETE"
/-- Constant `admissionv1.Connect`. -/
def Connect : Operation := "CONNECT"

/-- A `runtime.Object` interface value as the decoders return it: the nil
interface, a `*GlobalRoleBinding` (possibly a nil pointer), or a value of
some other dynamic type. -/
inductive RuntimeObject where
  | nilObject : RuntimeObject
  | grb : Option GlobalRoleBinding → RuntimeObject
  | other : String → RuntimeObject
deriving DecidableEq, Repr

/-- The pair `(runtime.Object, error)` returned by a decoder. -/
abbrev DecodeResult := RuntimeObject × GoError

/-- Type `webhook.Request`: the admission request together with what its two
decoder methods return on it. -/
structure Request where
  Kind : String
  Operation : Operation
  UserInfo : UserInfo
  Namespace : String
  Name : String
  DecodeObject : DecodeResult
  DecodeOldObject : DecodeResult
deriving DecidableEq, Repr

/-- Type `metav1.Status` (the fields a denial fills in). -/
structure Status where
  Status : String
  Message : String
  Reason : String
  Code : Nat
deriving DecidableEq, Repr

/-- Type `webhook.Response`. -/
structure Response where
  Allowed : Bool
  Result : Option Status
deriving DecidableEq, Repr

/-- Method `GlobalRoleCache.Get`: a role pointer and an error, by role name. -/
abbrev GlobalRoleCache := String → Option GlobalRole × GoError

/-- Method `EscalationChecker.confirmNoEscalation`: from the response, the
request, the granted rules and the scope to the response it leaves behind and
the error it returns. -/
abbrev EscalationChecker :=
  Response → Request → List PolicyRule → String → Response × GoError

/-- Type `globalRoleBindingValidator`. -/
structure globalRoleBindingValidator where
  escalationChecker : EscalationChecker
  globalRoles : GlobalRoleCache

/-- One recorded call of the escalation checker. -/
structure CheckerCall where
  response : Response
  request : Request
  rules : List PolicyRule
  scope : String
deriving DecidableEq, Repr

/-- What a returning `Admit` leaves behind: the response as it stands, the
returned error, the role names looked up and the checker calls made. -/
structure AdmitResult where
  response : Response
  err : GoError
  lookups : List String
  calls : List CheckerCall
deriving DecidableEq, Repr

/-! ## `pkg/auth/globarolebinding.go` -/

/-- Function `grbObject`: decode the old object on Delete and the new object
otherwise, then assert the dynamic type `*GlobalRoleBinding` (single-result
form, which panics on the nil interface and on any other type) and return the
pointer with the decoder error. -/
def grbObject (request : Request) : Outcome (Option GlobalRoleBinding × GoError) :=
  let (grb, err) :=
    if request.Operation == Delete then request.DecodeOldObject
    else request.DecodeObject
  match grb with
  | .grb p => .ret (p, err)
  | .nilObject => .panic
  | .other _ => .panic

/-- Method `globalRoleBindingValidator.Admit`. The deferred trace only logs
and is left out. -/
def Admit (grbv : globalRoleBindingValidator) (response : Response) (request : Request) :
    Outcome AdmitResult :=
  match grbObject request with
  | .panic => .panic
  | .ret (newGRB, err) =>
    match err with
    | some e => .ret ⟨response, some e, [], []⟩
    | none =>
      match newGRB with
      | none => .panic
      | some b =>
        match grbv.globalRoles b.GlobalRoleName with
        | (_, some e) => .ret ⟨response, some e, [b.GlobalRoleName], []⟩
        | (globalRole, none) =>
          match globalRole with
          | none => .panic
          | some role =>
            let out := grbv.escalationChecker response request role.Rules ""
            .ret ⟨out.1, out.2, [b.GlobalRoleName], [⟨response, request, role.Rules, ""⟩]⟩

/-- Function `toExtraString`: a fresh map that receives every entry of `extra`. -/
def toExtraString (extra : GoMap ExtraValue) : GoMap (List String) :=
  some (extra.entries.foldl (fun result e => setEntry e.1 e.2 result) [])

/-! ## Kubernetes types used by the server -/

/-- Type `[]byte`; the nil slice and the empty slice are both `[]`. -/
abbrev Bytes := List UInt8

/-- Type `corev1.Secret`. -/
structure Secret where
  Name : String
  Namespace : String
  Data : GoMap Bytes
deriving DecidableEq, Repr

/-- Constant `corev1.TLSCertKey`. -/
def corev1.TLSCertKey : String := "tls.crt"

/-- Type `v1.OperationType` of `admissionregistration`, a string. -/
abbrev OperationType := String

/-- Constant `v1.Create`. -/
def v1.Create : OperationType := "CREATE"
/-- Constant `v1.Update`. -/
def v1.Update : OperationType := "UPDATE"
/-- Constant `v1.Delete`. -/
def v1.Delete : OperationType := "DELETE"
/-- Constant `v1.ClusterScope`. -/
def v1.ClusterScope : String := "Cluster"
/-- Constant `v1.NamespacedScope`. -/
def v1.NamespacedScope : String := "Namespaced"
/-- Constant `v1.Fail`. -/
def v1.Fail : String := "Fail"
/-- Constant `v1.Ignore`. -/
def v1.Ignore : String := "Ignore"
/-- Constant `v1.SideEffectClassNone`. -/
def v1.SideEffectClassNone : String := "None"

/-- Type `v1.ServiceReference`. -/
structure ServiceReference where
  Namespace : String
  Name : String
  Path : Option String
  Port : Option Int
deriving DecidableEq, Repr

/-- Type `v1.WebhookClientConfig`. -/
structure WebhookClientConfig where
  Service : Option ServiceReference
  CABundle : Bytes
deriving DecidableEq, Repr

/-- Type `v1.Rule`. -/
structure Rule where
  APIGroups : List String
  APIVersions : List String
  Resources : List String
  Scope : Option String
deriving DecidableEq, Repr

/-- Type `v1.RuleWithOperations`. -/
structure RuleWithOperations where
  Operations : List OperationType
  Rule : Rule
deriving DecidableEq, Repr

/-- Type `v1.ValidatingWebhook`. -/
structure ValidatingWebhook where
  Name : String
  ClientConfig : WebhookClientConfig
  Rules : List RuleWithOperations
  FailurePolicy : Option String
  SideEffects : Option String
  AdmissionReviewVersions : List String
deriving DecidableEq, Repr

/-- Type `v1.ValidatingWebhookConfiguration`. -/
structure ValidatingWebhookConfiguration where
  Name : String
  Webhooks : List ValidatingWebhook
deriving DecidableEq, Repr

/-- Call `apply.WithOwner(secret).ApplyObjects(cfg)`: the error it returns. -/
abbrev Applier := Secret → ValidatingWebhookConfiguration → GoError

/-- What the secret handler leaves behind: the returned secret pointer, the
returned error and the objects applied, each with its owner. -/
structure HandlerResult where
  secret : Option Secret
  err : GoError
  applied : List (Secret × ValidatingWebhookConfiguration)
deriving DecidableEq, Repr

/-- Type `dynamiclistener.Config` (the fields set by the server). -/
structure TLSListenerConfig where
  SANs : List String
  CloseConnOnCertChange : Bool
  FilterCN : List String → Option (List String)

/-- Type `server.ListenOpts` (the fields set by the server). -/
structure ListenOpts where
  CertNamespace : String
  CertName : String
  CAName : String
  TLSListenerConfig : TLSListenerConfig

/-! ## `pkg/admission/server.go` -/

/-- Variable `namespace`. -/
def namespaceName : String := "cattle-system"
/-- Variable `tlsName`. -/
def tlsName : String := "rancher-webhook.cattle-system.svc"
/-- Variable `certName`. -/
def certName : String := "cattle-webhook-tls"
/-- Variable `caName`. -/
def caName : String := "cattle-webhook-ca"
/-- Variable `port`. -/
def port : Int := 443
/-- Variable `path`. -/
def path : String := "/v1/webhook/validation"
/-- Variable `clusterScope`. -/
def clusterScope : String := v1.ClusterScope
/-- Variable `namespaceScope`. -/
def namespaceScope : String := v1.NamespacedScope
/-- Variable `failPolicyFail`. -/
def failPolicyFail : String := v1.Fail
/-- Variable `failPolicyIgnore`. -/
def failPolicyIgnore : String := v1.Ignore
/-- Variable `sideEffect`. -/
def sideEffect : String := v1.SideEffectClassNone

/-- Function `only`: the first element of `s2` equal to `str`, as a
one-element slice; the nil slice (`none`) when there is none. -/
def only (str : String) : List String → Option (List String)
  | [] => none
  | s :: rest => if s == str then some [s] else only str rest

/-- The `ValidatingWebhookConfiguration` literal of the secret handler in
`listenAndServe`, as a function of the bytes `secret.Data[corev1.TLSCertKey]`. -/
def validatingWebhookConfiguration (tlsCert : Bytes) : ValidatingWebhookConfiguration :=
  { Name := "rancher.cattle.io"
    Webhooks := [
      { Name := "rancher.cattle.io"
        ClientConfig :=
          { Service := some
              { Namespace := namespaceName, Name := "rancher-webhook",
                Path := some path, Port := some port }
            CABundle := tlsCert }
        Rules := [
          { Operations := [v1.Create, v1.Update]
            Rule :=
              { APIGroups := ["management.cattle.io"], APIVersions := ["v3"],
                Resources := ["clusters"], Scope := some clusterScope } }]
        FailurePolicy := some failPolicyIgnore
        SideEffects := some sideEffect
        AdmissionReviewVersions := ["v1"] },
      { Name := "rancherauth.cattle.io"
        ClientConfig :=
          { Service := some
              { Namespace := namespaceName, Name := "rancher-webhook",
                Path := some path, Port := some port }
            CABundle := tlsCert }
        Rules := [
          { Operations := [v1.Create, v1.Update, v1.Delete]
            Rule :=
              { APIGroups := ["management.cattle.io"], APIVersions := ["v3"],
                Resources := ["globalrolebindings"], Scope := some clusterScope } },
          { Operations := [v1.Create, v1.Update, v1.Delete]
            Rule :=
              { APIGroups := ["management.cattle.io"], APIVersions := ["v3"],
                Resources := ["projectroletemplatebindings"], Scope := some namespaceScope } },
          { Operations := [v1.Create, v1.Update, v1.Delete]
            Rule :=
              { APIGroups := ["management.cattle.io"], APIVersions := ["v3"],
                Resources := ["clusterroletemplatebindings"], Scope := some namespaceScope } }]
        FailurePolicy := some failPolicyFail
        SideEffects := some sideEffect
        AdmissionReviewVersions := ["v1"] }] }

/-- Expression `secret.Data[corev1.TLSCertKey]`: the bytes under the key, the
nil slice when the key or the map is missing. -/
def tlsCertData (secret : Secret) : Bytes :=
  (secret.Data.get corev1.TLSCertKey).getD []

/-- The `OnChange` handler that `listenAndServe` registers for secrets. -/
def onSecretChange (apply : Applier) (_key : String) (secret : Option Secret) : HandlerResult :=
  match secret with
  | none => ⟨none, none, []⟩
  | some s =>
    if s.Name != caName || (tlsCertData s).length == 0 then ⟨none, none, []⟩
    else
      let cfg := validatingWebhookConfiguration (tlsCertData s)
      ⟨some s, apply s cfg, [(s, cfg)]⟩

/-- The `server.ListenOpts` literal of `listenAndServe`. -/
def listenOpts : ListenOpts :=
  { CertNamespace := namespaceName
    CertName := certName
    CAName := caName
    TLSListenerConfig :=
      { SANs := ["rancher-webhook"]
        CloseConnOnCertChange := false
        FilterCN := only tlsName } }

/-! ## Reading a webhook registration -/

/-- The resources whose writes go through the escalation check, all in
`management.cattle.io/v3`. -/
def guardedResources : List String :=
  ["globalrolebindings", "projectroletemplatebindings", "clusterroletemplatebindings"]

/-- A rule names a resource: group, version and resource are listed in it. -/
def ruleNames (r : RuleWithOperations) (group version resource : String) : Bool :=
  r.Rule.APIGroups.contains group && r.Rule.APIVersions.contains version &&
    r.Rule.Resources.contains resource

/-- A rule matches a resource the way the API server reads a registration:
each of group, version and resource is listed or covered by a wildcard. -/
def ruleMatches (r : RuleWithOperations) (group version resource : String) : Bool :=
  (r.Rule.APIGroups.contains "*" || r.Rule.APIGroups.contains group) &&
    (r.Rule.APIVersions.contains "*" || r.Rule.APIVersions.contains version) &&
    (r.Rule.Resources.contains "*" || r.Rule.Resources.contains "*/*" ||
      r.Rule.Resources.contains resource)

/-! ## Checker contract -/

/-- Modelled from the spec: the body of `confirmNoEscalation` is missing from
the sources at hand; its contract takes the requester identity, the granted
rules, the scope and the request kind, so of the request it reads only the
requester identity and the kind. -/
def ChecksIdentityOnly (checker : EscalationChecker) : Prop :=
  ∀ (response : Response) (r1 r2 : Request) (rules : List PolicyRule) (scope : String),
    r1.UserInfo = r2.UserInfo → r1.Kind = r2.Kind →
    checker response r1 rules scope = checker response r2 rules scope

/-- The check a run of `Admit` performed: the role names looked up and, for
each checker call, the response, requester, kind, granted rules and scope. -/
def checkPerformed (o : Outcome AdmitResult) :
    Outcome (List String × List (Response × UserInfo × String × List PolicyRule × String)) :=
  o.map (fun r => (r.lookups,
    r.calls.map (fun c => (c.response, c.request.UserInfo, c.request.Kind, c.rules, c.scope))))

/-- The decision a run of `Admit` produced: the response and the error. -/
def decision (o : Outcome AdmitResult) : Outcome (Response × GoError) :=
  o.map (fun r => (r.response, r.err))

/-! ## Sample values -/

/-- A requester. -/
def sampleUser : UserInfo :=
  ⟨"alice", "u-1", ["system:authenticated"], some [("principalid", ["local://u-1"])]⟩

/-- A binding of `alice` to the global role `admin`. -/
def sampleGRB : GlobalRoleBinding :=
  ⟨"grb-1", "alice", "", "admin"⟩

/-- A rule granting everything. -/
def ruleAll : PolicyRule :=
  ⟨["*"], ["*"], ["*"], [], []⟩

/-- A rule granting reads of pods. -/
def ruleGetPods : PolicyRule :=
  ⟨["get"], [""], ["pods"], [], []⟩

/-- The global role `admin`. -/
def sampleRole : GlobalRole :=
  ⟨"admin", "Admin", [ruleGetPods, ruleAll]⟩

/-- A cache holding only the role `admin`. -/
def sampleCache : GlobalRoleCache := fun name =>
  if name == "admin" then (some sampleRole, none)
  else (none, some "globalroles.management.cattle.io not found")

/-- An empty cache: every lookup fails. -/
def emptyCache : GlobalRoleCache := fun _ =>
  (none, some "globalroles.management.cattle.io not found")

/-- A checker that allows `root` and everyone who grants nothing, and denies
the rest through the response. -/
def sampleChecker : EscalationChecker := fun response request rules _ =>
  if request.UserInfo.Username == "root" || rules.isEmpty then
    (⟨true, response.Result⟩, none)
  else
    (⟨false, some ⟨"Failure", "escalation", "Unauthorized", 401⟩⟩, none)

/-- A validator over the sample cache. -/
def sampleValidator : globalRoleBindingValidator :=
  ⟨sampleChecker, sampleCache⟩

/-- A validator over the empty cache. -/
def emptyValidator : globalRoleBindingValidator :=
  ⟨sampleChecker, emptyCache⟩

/-- The response as the transport hands it in. -/
def freshResponse : Response :=
  ⟨false, none⟩

/-- Create request whose payload did not decode: no object, an error. -/
def createUndecodable : Request :=
  ⟨"GlobalRoleBinding", Create, sampleUser, "", "grb-1",
    (.nilObject, some "unexpected end of JSON input"), (.nilObject, none)⟩

/-- Create request whose payload decoded to another type. -/
def createOtherType : Request :=
  ⟨"GlobalRoleBinding", Create, sampleUser, "", "grb-1",
    (.other "*v3.Cluster", none), (.nilObject, none)⟩

/-- Create request for the sample binding. -/
def createSample : Request :=
  ⟨"GlobalRoleBinding", Create, sampleUser, "", "grb-1",
    (.grb (some sampleGRB), none), (.nilObject, none)⟩

/-- Delete request for the sample binding. -/
def deleteSample : Request :=
  ⟨"GlobalRoleBinding", Delete, sampleUser, "", "grb-1",
    (.nilObject, none), (.grb (some sampleGRB), none)⟩

/-- Update request in a namespace, with a decode error next to the object. -/
def updateBroken : Request :=
  ⟨"GlobalRoleBinding", Update, sampleUser, "ns-1", "grb-1",
    (.grb (some sampleGRB), some "json: unknown field"), (.grb (some sampleGRB), none)⟩

/-- Delete request whose old object is a nil binding pointer next to an error. -/
def deleteTruncated : Request :=
  ⟨"GlobalRoleBinding", Delete, sampleUser, "", "grb-1",
    (.nilObject, none), (.grb none, some "unexpected end of JSON input")⟩

/-- Update request for the sample binding that carries a namespace. -/
def updateNamespaced : Request :=
  ⟨"GlobalRoleBinding", Update, sampleUser, "ns-1", "grb-1",
    (.grb (some sampleGRB), none), (.grb (some sampleGRB), none)⟩

/-- A certificate. -/
def sampleCert : Bytes := [45, 45, 45, 66, 69, 71, 73, 78]

/-- The CA secret with a certificate. -/
def caSecret : Secret :=
  ⟨"cattle-webhook-ca", "cattle-system", some [("tls.key", [1, 2]), ("tls.crt", sampleCert)]⟩

/-- The serving-certificate secret, which is not the CA secret. -/
def tlsSecret : Secret :=
  ⟨"cattle-webhook-tls", "cattle-system", some [("tls.crt", sampleCert)]⟩

/-- An applier that succeeds. -/
def okApplier : Applier := fun _ _ => none

/-- A request identity map with two keys. -/
def sampleExtra : GoMap ExtraValue :=
  some [("principalid", ["local://u-1"]), ("username", ["alice", "al"])]

/-! ## Theorems: `pkg/auth/globarolebinding.go` -/

/-- Counterexample to C1 as stated: a decoder result holding the nil object
next to an error, or an object of another type, is within the inputs the
claim names, and on it the type assertion of `grbObject` panics, so `Admit`
returns nothing, an error included. -/
theorem Admit_panics_on_undecodable_object :
    createUndecodable.DecodeObject =
      (RuntimeObject.nilObject, some "unexpected end of JSON input") ∧
    grbObject createUndecodable = Outcome.panic ∧
    (¬ ∃ out, Admit sampleValidator freshResponse createUndecodable = Outcome.ret out) ∧
    createOtherType.DecodeObject = (RuntimeObject.other "*v3.Cluster", none) ∧
    grbObject createOtherType = Outcome.panic ∧
    (¬ ∃ out, Admit sampleValidator freshResponse createOtherType = Outcome.ret out) := by
  have h1 : Admit sampleValidator freshResponse createUndecodable = Outcome.panic := by decide
  have h2 : Admit sampleValidator freshResponse createOtherType = Outcome.panic := by decide
  refine ⟨rfl, by decide, ?_, rfl, by decide, ?_⟩
  · rintro ⟨out, hout⟩
    rw [h1] at hout
    cases hout
  · rintro ⟨out, hout⟩
    rw [h2] at hout
    cases hout

/-- C1 (amended): when the decoder that `grbObject` consults (the old-object
decoder on Delete, the new-object decoder otherwise) returns the error `e`
next to a `*GlobalRoleBinding`, nil pointer included, `grbObject` returns that
pointer with `e` and `Admit` returns `e`: it does not panic, looks up no
role, does not call the checker and leaves the response as passed in, so not
allowed when it was not. -/
theorem Admit_decode_error (grbv : globalRoleBindingValidator) (response : Response)
    (request : Request) (p : Option GlobalRoleBinding) (e : String)
    (hdec : (if request.Operation == Delete then request.DecodeOldObject
      else request.DecodeObject) = (RuntimeObject.grb p, some e)) :
    grbObject request = Outcome.ret (p, some e) ∧
    Admit grbv response request = Outcome.ret ⟨response, some e, [], []⟩ ∧
    (∀ out, Admit grbv response request = Outcome.ret out →
      out.err = some e ∧ out.lookups = [] ∧ out.calls = [] ∧ out.response = response ∧
      (response.Allowed = false → out.response.Allowed = false)) := by
  have hg : grbObject request = Outcome.ret (p, some e) := by
    simp only [grbObject, hdec]
  have ha : Admit grbv response request = Outcome.ret ⟨response, some e, [], []⟩ := by
    simp only [Admit, hg]
  refine ⟨hg, ha, ?_⟩
  intro out hout
  rw [ha] at hout
  cases hout
  exact ⟨rfl, rfl, rfl, rfl, fun h => h⟩

/-- Witness of the amended C1: the Update request whose new object decoded
with an error, and the Delete request whose old object is a nil pointer next
to an error. -/
theorem Admit_decode_error_witness :
    Admit sampleValidator freshResponse updateBroken =
      Outcome.ret ⟨freshResponse, some "json: unknown field", [], []⟩ ∧
    Admit sampleValidator freshResponse deleteTruncated =
      Outcome.ret ⟨freshResponse, some "unexpected end of JSON input", [], []⟩ :=
  ⟨(Admit_decode_error sampleValidator freshResponse updateBroken (some sampleGRB)
      "json: unknown field" (by decide)).2.1,
   (Admit_decode_error sampleValidator freshResponse deleteTruncated none
      "unexpected end of JSON input" (by decide)).2.1⟩

/-- C2: when the binding decodes and the lookup of its `GlobalRoleName` fails
with error `e`, `Admit` returns exactly `e`, has looked up that one name, has
not called the checker and has left the response as passed in (so still not
allowed when it was not); a nil role pointer next to the error is not
dereferenced. -/
theorem Admit_role_lookup_failure (grbv : globalRoleBindingValidator) (response : Response)
    (request : Request) (b : GlobalRoleBinding) (role : Option GlobalRole) (e : String)
    (hdec : grbObject request = Outcome.ret (some b, none))
    (hget : grbv.globalRoles b.GlobalRoleName = (role, some e)) :
    Admit grbv response request = Outcome.ret ⟨response, some e, [b.GlobalRoleName], []⟩ ∧
    (∀ out, Admit grbv response request = Outcome.ret out →
      out.err = some e ∧ out.calls = [] ∧ out.response = response ∧
      (response.Allowed = false → out.response.Allowed = false)) := by
  have h : Admit grbv response request =
      Outcome.ret ⟨response, some e, [b.GlobalRoleName], []⟩ := by
    simp only [Admit, hdec, hget]
  refine ⟨h, ?_⟩
  intro out hout
  rw [h] at hout
  cases hout
  exact ⟨rfl, rfl, rfl, fun ha => ha⟩

/-- Witness of C2 on the Create request for the sample binding, over the empty cache. -/
theorem Admit_role_lookup_failure_witness :
    Admit emptyValidator freshResponse createSample =
      Outcome.ret ⟨freshResponse, some "globalroles.management.cattle.io not found",
        ["admin"], []⟩ :=
  (Admit_role_lookup_failure emptyValidator freshResponse createSample sampleGRB none
    "globalroles.management.cattle.io not found" (by decide) (by decide)).1

/-- Shared step: on Delete `grbObject` returns `r` exactly when the old-object
decoder returned the pointer and error of `r`. -/
theorem grbObject_delete_iff (request : Request) (h : request.Operation = Delete)
    (r : Option GlobalRoleBinding × GoError) :
    grbObject request = Outcome.ret r ↔ request.DecodeOldObject = (RuntimeObject.grb r.1, r.2) := by
  obtain ⟨p, e⟩ := r
  rcases hd : request.DecodeOldObject with ⟨o, e2⟩
  cases o <;> simp [grbObject, h, hd]

/-- Shared step: on any other operation `grbObject` returns `r` exactly when
the new-object decoder returned the pointer and error of `r`. -/
theorem grbObject_other_iff (request : Request) (h : request.Operation ≠ Delete)
    (r : Option GlobalRoleBinding × GoError) :
    grbObject request = Outcome.ret r ↔ request.DecodeObject = (RuntimeObject.grb r.1, r.2) := by
  obtain ⟨p, e⟩ := r
  rcases hd : request.DecodeObject with ⟨o, e2⟩
  cases o <;> simp [grbObject, h, hd]

/-- C3: `grbObject` reads the old object exactly on Delete. On Delete it
returns a result exactly when `DecodeOldObject` returned that pointer and
error, and its outcome is the same on every Delete request with the same
`DecodeOldObject` result, whatever the new object; on every other operation
the same holds with `DecodeObject`, whatever the old object. -/
theorem grbObject_source_by_operation (request : Request) :
    (request.Operation = Delete →
      (∀ r, grbObject request = Outcome.ret r ↔
        request.DecodeOldObject = (RuntimeObject.grb r.1, r.2)) ∧
      (∀ other : Request, other.Operation = Delete →
        other.DecodeOldObject = request.DecodeOldObject →
        grbObject other = grbObject request) ∧
      (∀ d : DecodeResult, grbObject { request with DecodeObject := d } = grbObject request)) ∧
    (request.Operation ≠ Delete →
      (∀ r, grbObject request = Outcome.ret r ↔
        request.DecodeObject = (RuntimeObject.grb r.1, r.2)) ∧
      (∀ other : Request, other.Operation ≠ Delete →
        other.DecodeObject = request.DecodeObject →
        grbObject other = grbObject request) ∧
      (∀ d : DecodeResult, grbObject { request with DecodeOldObject := d } = grbObject request)) := by
  constructor
  · intro h
    refine ⟨grbObject_delete_iff request h, ?_, ?_⟩
    · intro other ho hd
      simp [grbObject, h, ho, hd]
    · intro d
      simp [grbObject, h]
  · intro h
    refine ⟨grbObject_other_iff request h, ?_, ?_⟩
    · intro other ho hd
      simp [grbObject, h, ho, hd]
    · intro d
      simp [grbObject, h]

/-- Witness of C3: the Delete request returns the binding of its old object,
the Update request the binding and error of its new object. -/
theorem grbObject_source_by_operation_witness :
    grbObject deleteSample = Outcome.ret (some sampleGRB, none) ∧
    grbObject updateBroken = Outcome.ret (some sampleGRB, some "json: unknown field") :=
  ⟨(((grbObject_source_by_operation deleteSample).1 (by decide)).1
      (some sampleGRB, none)).2 (by decide),
   (((grbObject_source_by_operation updateBroken).2 (by decide)).1
      (some sampleGRB, some "json: unknown field")).2 (by decide)⟩

/-- Shared step: what `Admit` does once the binding has decoded to `b`. -/
theorem Admit_of_decoded (grbv : globalRoleBindingValidator) (response : Response)
    (request : Request) (b : GlobalRoleBinding)
    (hdec : grbObject request = Outcome.ret (some b, none)) :
    Admit grbv response request =
      match grbv.globalRoles b.GlobalRoleName with
      | (_, some e) => Outcome.ret ⟨response, some e, [b.GlobalRoleName], []⟩
      | (none, none) => Outcome.panic
      | (some role, none) =>
        Outcome.ret ⟨(grbv.escalationChecker response request role.Rules "").1,
          (grbv.escalationChecker response request role.Rules "").2,
          [b.GlobalRoleName], [⟨response, request, role.Rules, ""⟩]⟩ := by
  simp only [Admit, hdec]
  rcases grbv.globalRoles b.GlobalRoleName with ⟨role, e⟩
  cases e <;> cases role <;> rfl

/-- C4: delete symmetry. Take a Delete request whose old object is `b` and a
Create request whose new object is `b`, from the same requester on the same
kind, and any state of the global-role lookup. Both runs of `Admit` look up
exactly `b.GlobalRoleName`. When the lookup fails with `e`, both return `e`
with the response untouched and no checker call. When it resolves to `role`,
each run calls the checker once, with the response passed in, its own
request, the rules of `role` and the scope `""`, and returns what that call
returned; with a checker that reads of the request only the requester
identity and the kind, both runs return the same response and error, those
of the checker on the rules of `role` at scope `""`. When the lookup yields
a nil role without error both runs panic. So the check performed is the same
in every case, and so is the decision under that checker contract. -/
theorem Admit_delete_symmetry (grbv : globalRoleBindingValidator) (response : Response)
    (del cre : Request) (b : GlobalRoleBinding)
    (hdel : del.Operation = Delete) (hold : del.DecodeOldObject = (RuntimeObject.grb (some b), none))
    (hcre : cre.Operation = Create) (hnew : cre.DecodeObject = (RuntimeObject.grb (some b), none))
    (huser : del.UserInfo = cre.UserInfo) (hkind : del.Kind = cre.Kind) :
    (∀ role e, grbv.globalRoles b.GlobalRoleName = (role, some e) →
      Admit grbv response del = Outcome.ret ⟨response, some e, [b.GlobalRoleName], []⟩ ∧
      Admit grbv response cre = Outcome.ret ⟨response, some e, [b.GlobalRoleName], []⟩) ∧
    (∀ role, grbv.globalRoles b.GlobalRoleName = (some role, none) →
      Admit grbv response del =
        Outcome.ret ⟨(grbv.escalationChecker response del role.Rules "").1,
          (grbv.escalationChecker response del role.Rules "").2,
          [b.GlobalRoleName], [⟨response, del, role.Rules, ""⟩]⟩ ∧
      Admit grbv response cre =
        Outcome.ret ⟨(grbv.escalationChecker response cre role.Rules "").1,
          (grbv.escalationChecker response cre role.Rules "").2,
          [b.GlobalRoleName], [⟨response, cre, role.Rules, ""⟩]⟩ ∧
      checkPerformed (Admit grbv response del) =
        Outcome.ret ([b.GlobalRoleName], [(response, del.UserInfo, del.Kind, role.Rules, "")]) ∧
      checkPerformed (Admit grbv response cre) =
        Outcome.ret ([b.GlobalRoleName], [(response, del.UserInfo, del.Kind, role.Rules, "")]) ∧
      (ChecksIdentityOnly grbv.escalationChecker →
        decision (Admit grbv response del) =
          Outcome.ret (grbv.escalationChecker response del role.Rules "") ∧
        decision (Admit grbv response cre) =
          Outcome.ret (grbv.escalationChecker response del role.Rules ""))) ∧
    (grbv.globalRoles b.GlobalRoleName = (none, none) →
      Admit grbv response del = Outcome.panic ∧ Admit grbv response cre = Outcome.panic) ∧
    checkPerformed (Admit grbv response del) = checkPerformed (Admit grbv response cre) ∧
    (ChecksIdentityOnly grbv.escalationChecker →
      decision (Admit grbv response del) = decision (Admit grbv response cre)) := by
  have hc : cre.Operation ≠ Delete := by rw [hcre]; decide
  have h1 : grbObject del = Outcome.ret (some b, none) :=
    (grbObject_delete_iff del hdel (some b, none)).2 hold
  have h2 : grbObject cre = Outcome.ret (some b, none) :=
    (grbObject_other_iff cre hc (some b, none)).2 hnew
  rw [Admit_of_decoded grbv response del b h1, Admit_of_decoded grbv response cre b h2]
  refine ⟨?_, ?_, ?_, ?_, ?_⟩
  · intro role e hget
    rw [hget]
    cases role <;> exact ⟨rfl, rfl⟩
  · intro role hget
    rw [hget]
    refine ⟨rfl, rfl, rfl, ?_, ?_⟩
    · simp [checkPerformed, Outcome.map, huser, hkind]
    · intro hchk
      refine ⟨rfl, ?_⟩
      simp only [decision, Outcome.map]
      rw [hchk response del cre role.Rules "" huser hkind]
  · intro hget
    rw [hget]
    exact ⟨rfl, rfl⟩
  · rcases grbv.globalRoles b.GlobalRoleName with ⟨role, e⟩
    cases e <;> cases role <;> simp [checkPerformed, Outcome.map, huser, hkind]
  · intro hchk
    rcases grbv.globalRoles b.GlobalRoleName with ⟨role, e⟩
    cases e <;> cases role <;> simp [decision, Outcome.map]
    rename_i role
    exact hchk response del cre role.Rules "" huser hkind

/-- Witness of C4 on the sample Delete and Create requests: both look up
`admin`, hand its two rules to the checker at scope `""`, and are denied
through the response. -/
theorem Admit_delete_symmetry_witness :
    checkPerformed (Admit sampleValidator freshResponse deleteSample) =
      Outcome.ret (["admin"],
        [(freshResponse, sampleUser, "GlobalRoleBinding", [ruleGetPods, ruleAll], "")]) ∧
    checkPerformed (Admit sampleValidator freshResponse createSample) =
      Outcome.ret (["admin"],
        [(freshResponse, sampleUser, "GlobalRoleBinding", [ruleGetPods, ruleAll], "")]) ∧
    decision (Admit sampleValidator freshResponse deleteSample) =
      Outcome.ret (⟨false, some ⟨"Failure", "escalation", "Unauthorized", 401⟩⟩, none) ∧
    decision (Admit sampleValidator freshResponse createSample) =
      Outcome.ret (⟨false, some ⟨"Failure", "escalation", "Unauthorized", 401⟩⟩, none) :=
  have h := (Admit_delete_symmetry sampleValidator freshResponse deleteSample createSample
    sampleGRB (by decide) (by decide) (by decide) (by decide) (by decide) (by decide)).2.1
    sampleRole (by decide)
  have hd := h.2.2.2.2 (by
    intro response r1 r2 rules scope hu _
    simp [sampleValidator, sampleChecker, hu])
  ⟨h.2.2.1, h.2.2.2.1, hd.1, hd.2⟩

/-- C5: no allowed response next to a decode or lookup error. With a response
passed in as not allowed, when `grbObject` returns the error `e`, or the
binding decodes and the global-role lookup returns the error `e`, `Admit`
returns `e` without calling the checker and the response is exactly the one
passed in, still not allowed. Any return of `Admit` that made no checker call
carries an error and the untouched response. -/
theorem Admit_error_leaves_response (grbv : globalRoleBindingValidator) (response : Response)
    (request : Request) (hfalse : response.Allowed = false) :
    (∀ e : String,
      ((∃ p, grbObject request = Outcome.ret (p, some e)) ∨
        (∃ b role, grbObject request = Outcome.ret (some b, none) ∧
          grbv.globalRoles b.GlobalRoleName = (role, some e))) →
      ∃ out, Admit grbv response request = Outcome.ret out ∧ out.err = some e ∧
        out.calls = [] ∧ out.response = response ∧ out.response.Allowed = false) ∧
    (∀ out, Admit grbv response request = Outcome.ret out → out.calls = [] →
      out.err ≠ none ∧ out.response = response ∧ out.response.Allowed = false) := by
  constructor
  · intro e hstep
    rcases hstep with ⟨p, hp⟩ | ⟨b, role, hb, hget⟩
    · exact ⟨⟨response, some e, [], []⟩, by simp only [Admit, hp], rfl, rfl, rfl, hfalse⟩
    · exact ⟨⟨response, some e, [b.GlobalRoleName], []⟩, by simp only [Admit, hb, hget],
        rfl, rfl, rfl, hfalse⟩
  · intro out hout hcalls
    unfold Admit at hout
    split at hout
    · cases hout
    · split at hout
      · cases hout
        exact ⟨by simp, rfl, hfalse⟩
      · split at hout
        · cases hout
        · split at hout
          · cases hout
            exact ⟨by simp, rfl, hfalse⟩
          · split at hout
            · cases hout
            · cases hout
              simp at hcalls

/-- Witness of C5: the Update request whose decoder returned an error, and
the Create request over the empty cache. -/
theorem Admit_error_leaves_response_witness :
    (∃ out, Admit sampleValidator freshResponse updateBroken = Outcome.ret out ∧
      out.err = some "json: unknown field" ∧ out.calls = [] ∧
      out.response = freshResponse ∧ out.response.Allowed = false) ∧
    (∃ out, Admit emptyValidator freshResponse createSample = Outcome.ret out ∧
      out.err = some "globalroles.management.cattle.io not found" ∧ out.calls = [] ∧
      out.response = freshResponse ∧ out.response.Allowed = false) :=
  ⟨(Admit_error_leaves_response sampleValidator freshResponse updateBroken (by decide)).1
      "json: unknown field" (Or.inl ⟨some sampleGRB, by decide⟩),
   (Admit_error_leaves_response emptyValidator freshResponse createSample (by decide)).1
      "globalroles.management.cattle.io not found"
      (Or.inr ⟨sampleGRB, none, by decide, by decide⟩)⟩

/-- C6: when the binding decodes to `b` and the lookup of `b.GlobalRoleName`
resolves to `role`, `Admit` calls the checker exactly once, with the response
and request as passed in, the rules of `role` as they are, and the scope `""`
whatever the namespace of the request; the response and error after `Admit`
are exactly those of that call. -/
theorem Admit_calls_checker_once (grbv : globalRoleBindingValidator) (response : Response)
    (request : Request) (b : GlobalRoleBinding) (role : GlobalRole)
    (hdec : grbObject request = Outcome.ret (some b, none))
    (hget : grbv.globalRoles b.GlobalRoleName = (some role, none)) :
    Admit grbv response request =
      Outcome.ret ⟨(grbv.escalationChecker response request role.Rules "").1,
        (grbv.escalationChecker response request role.Rules "").2,
        [b.GlobalRoleName], [⟨response, request, role.Rules, ""⟩]⟩ := by
  rw [Admit_of_decoded grbv response request b hdec, hget]

/-- Witness of C6: the namespaced Update request reaches the checker once,
with the two rules of the role `admin` in order and the empty scope, and is
denied through the response. -/
theorem Admit_calls_checker_once_witness :
    Admit sampleValidator freshResponse updateNamespaced =
      Outcome.ret ⟨⟨false, some ⟨"Failure", "escalation", "Unauthorized", 401⟩⟩, none,
        ["admin"], [⟨freshResponse, updateNamespaced, [ruleGetPods, ruleAll], ""⟩]⟩ :=
  Admit_calls_checker_once sampleValidator freshResponse updateNamespaced sampleGRB sampleRole
    (by decide) (by decide)

/-- Writing a key that is not yet in the map adds its entry at the end. -/
theorem setEntry_of_not_mem {V : Type} (k : String) (v : V) (es : List (String × V))
    (h : k ∉ es.map Prod.fst) : setEntry k v es = es ++ [(k, v)] := by
  induction es with
  | nil => rfl
  | cons e es ih =>
    simp only [List.map_cons, List.mem_cons, not_or] at h
    have hne : (e.1 == k) = false := by
      simp only [beq_eq_false_iff_ne, ne_eq]
      exact fun heq => h.1 heq.symm
    simp [setEntry, hne, ih h.2]

/-- Copying entries with pairwise distinct fresh keys into a map appends them. -/
theorem foldl_setEntry_append {V : Type} (es acc : List (String × V))
    (h : (acc.map Prod.fst ++ es.map Prod.fst).Nodup) :
    es.foldl (fun result e => setEntry e.1 e.2 result) acc = acc ++ es := by
  induction es generalizing acc with
  | nil => simp
  | cons e es ih =>
    have hnot : e.1 ∉ acc.map Prod.fst := by
      intro hmem
      rw [List.nodup_append] at h
      exact h.2.2 hmem (by simp)
    have hnd : ((acc ++ [e]).map Prod.fst ++ es.map Prod.fst).Nodup := by
      simpa [List.append_assoc] using h
    rw [List.foldl_cons, setEntry_of_not_mem e.1 e.2 acc hnot, ih (acc ++ [e]) hnd]
    simp

/-- C8: `toExtraString` copies the extra attributes verbatim. The result is a
non-nil map with exactly the entries of `extra`: it has each key once, the
same keys as `extra`, and under every key the same list of strings in the
same order; for a nil or empty `extra` it is the empty non-nil map. -/
theorem toExtraString_verbatim (extra : GoMap ExtraValue) (hwf : extra.WF) :
    toExtraString extra = some extra.entries ∧
    (toExtraString extra).WF ∧
    (∀ k, k ∈ (toExtraString extra).keys ↔ k ∈ extra.keys) ∧
    (∀ k, (toExtraString extra).get k = extra.get k) ∧
    (extra.entries = [] → toExtraString extra = some []) := by
  have h : toExtraString extra = some extra.entries := by
    unfold toExtraString
    rw [foldl_setEntry_append extra.entries [] (by simpa [GoMap.WF, GoMap.keys] using hwf)]
    simp
  have hent : (toExtraString extra).entries = extra.entries := by
    rw [h]; rfl
  refine ⟨h, ?_, ?_, ?_, ?_⟩
  · simpa [GoMap.WF, GoMap.keys, hent] using hwf
  · intro k
    simp [GoMap.keys, hent]
  · intro k
    simp [GoMap.get, hent]
  · intro hnil
    rw [h, hnil]

/-- Witness of C8: a two-key map is copied as it is, and the nil map becomes
the empty map. -/
theorem toExtraString_verbatim_witness :
    toExtraString sampleExtra =
      some [("principalid", ["local://u-1"]), ("username", ["alice", "al"])] ∧
    toExtraString none = some [] :=
  ⟨(toExtraString_verbatim sampleExtra (by decide)).1,
   (toExtraString_verbatim none (by decide)).2.2.2.2 rfl⟩

/-! ## Theorems: `pkg/admission/server.go` -/

/-- The result of `only` in closed form. -/
theorem only_eq (str : String) (s2 : List String) :
    only str s2 = if str ∈ s2 then some [str] else none := by
  induction s2 with
  | nil => rfl
  | cons s rest ih =>
    by_cases h : s = str
    · simp [only, h]
    · have h2 : ¬ str = s := fun heq => h heq.symm
      simp [only, h, h2, ih]

/-- C9: `only str` returns the one-element slice `[str]` when `str` occurs in
its arguments and the nil slice otherwise. So the result holds no name other
than `str`, has at most one element, is the same for any two argument lists
with the same members, and is nil on no arguments. The `FilterCN` of the TLS
listener is `only tlsName` and lets through no name other than
`rancher-webhook.cattle-system.svc`. -/
theorem only_spec (str : String) (s2 : List String) :
    only str s2 = (if str ∈ s2 then some [str] else none) ∧
    (∀ x ∈ (only str s2).getD [], x = str) ∧
    ((only str s2).getD []).length ≤ 1 ∧
    (∀ s3 : List String, (∀ x, x ∈ s2 ↔ x ∈ s3) → only str s3 = only str s2) ∧
    only str [] = none ∧
    listenOpts.TLSListenerConfig.FilterCN = only tlsName ∧
    (∀ x ∈ (listenOpts.TLSListenerConfig.FilterCN s2).getD [],
      x = "rancher-webhook.cattle-system.svc") := by
  have hmem : ∀ (t : String) (l : List String), ∀ x ∈ (only t l).getD [], x = t := by
    intro t l x hx
    rw [only_eq] at hx
    split at hx <;> simp at hx
    exact hx
  refine ⟨only_eq str s2, hmem str s2, ?_, ?_, rfl, rfl, ?_⟩
  · rw [only_eq]
    split <;> simp
  · intro s3 hsame
    rw [only_eq, only_eq]
    simp [hsame str]
  · intro x hx
    exact hmem tlsName s2 x hx

/-- Witness of C9: order and repetition of the names do not matter, and the
listener filter drops every foreign name. -/
theorem only_spec_witness :
    only "a" ["b", "a", "a"] = only "a" ["a", "b"] ∧
    only "a" ["b", "a", "a"] = some ["a"] ∧
    listenOpts.TLSListenerConfig.FilterCN ["evil.example.com", "rancher-webhook"] = none :=
  ⟨(only_spec "a" ["a", "b"]).2.2.2.1 ["b", "a", "a"] (by simp; tauto),
   (only_spec "a" ["b", "a", "a"]).1.trans (by decide),
   by decide⟩

/-- Every configuration the secret handler applies is the literal of
`listenAndServe` over the certificate of the secret that owns it. -/
theorem onSecretChange_applied (apply : Applier) (key : String) (secret : Option Secret)
    (owner : Secret) (cfg : ValidatingWebhookConfiguration)
    (h : (owner, cfg) ∈ (onSecretChange apply key secret).applied) :
    cfg = validatingWebhookConfiguration (tlsCertData owner) := by
  unfold onSecretChange at h
  split at h
  · simp at h
  · split at h
    · simp at h
    · simp at h
      rw [h.2, h.1]

/-- The registration invariant on the literal of `listenAndServe`. -/
theorem validatingWebhookConfiguration_policy (tlsCert : Bytes) :
    (∀ w ∈ (validatingWebhookConfiguration tlsCert).Webhooks, ∀ r ∈ w.Rules,
      ∀ res ∈ guardedResources, ruleMatches r "management.cattle.io" "v3" res = true →
        w.FailurePolicy = some v1.Fail ∧ r.Operations = [v1.Create, v1.Update, v1.Delete]) ∧
    (∀ w ∈ (validatingWebhookConfiguration tlsCert).Webhooks, w.FailurePolicy = some v1.Ignore →
      ∀ r ∈ w.Rules,
        (∀ res ∈ guardedResources, ruleMatches r "management.cattle.io" "v3" res = false) ∧
        r.Rule.APIGroups = ["management.cattle.io"] ∧ r.Rule.APIVersions = ["v3"] ∧
        r.Rule.Resources = ["clusters"] ∧ r.Operations = [v1.Create, v1.Update]) ∧
    (∀ res ∈ guardedResources, ∃ w ∈ (validatingWebhookConfiguration tlsCert).Webhooks,
      w.FailurePolicy = some v1.Fail ∧
      ∃ r ∈ w.Rules, ruleNames r "management.cattle.io" "v3" res = true) := by
  simp [validatingWebhookConfiguration, guardedResources, ruleMatches, ruleNames,
    failPolicyFail, failPolicyIgnore, v1.Fail, v1.Ignore, v1.Create, v1.Update, v1.Delete]

/-- C7: in every `ValidatingWebhookConfiguration` the secret handler of
`listenAndServe` applies, a rule matching one of the guarded resources
(globalrolebindings, projectroletemplatebindings, clusterroletemplatebindings
of management.cattle.io/v3) sits in a webhook with failure policy Fail and
lists exactly Create, Update and Delete; every rule of a webhook with failure
policy Ignore matches none of the three and is the rule for clusters on
Create and Update; and each guarded resource is named by a rule of a Fail
webhook. -/
theorem published_configuration_fail_policy (apply : Applier) (key : String)
    (secret : Option Secret) (owner : Secret) (cfg : ValidatingWebhookConfiguration)
    (hpub : (owner, cfg) ∈ (onSecretChange apply key secret).applied) :
    (∀ w ∈ cfg.Webhooks, ∀ r ∈ w.Rules,
      ∀ res ∈ guardedResources, ruleMatches r "management.cattle.io" "v3" res = true →
        w.FailurePolicy = some v1.Fail ∧ r.Operations = [v1.Create, v1.Update, v1.Delete]) ∧
    (∀ w ∈ cfg.Webhooks, w.FailurePolicy = some v1.Ignore →
      ∀ r ∈ w.Rules,
        (∀ res ∈ guardedResources, ruleMatches r "management.cattle.io" "v3" res = false) ∧
        r.Rule.APIGroups = ["management.cattle.io"] ∧ r.Rule.APIVersions = ["v3"] ∧
        r.Rule.Resources = ["clusters"] ∧ r.Operations = [v1.Create, v1.Update]) ∧
    (∀ res ∈ guardedResources, ∃ w ∈ cfg.Webhooks,
      w.FailurePolicy = some v1.Fail ∧
      ∃ r ∈ w.Rules, ruleNames r "management.cattle.io" "v3" res = true) := by
  rw [onSecretChange_applied apply key secret owner cfg hpub]
  exact validatingWebhookConfiguration_policy (tlsCertData owner)

/-- Witness of C7: the configuration applied for the CA secret. -/
theorem published_configuration_fail_policy_witness :
    (caSecret, validatingWebhookConfiguration sampleCert) ∈
      (onSecretChange okApplier "cattle-system/cattle-webhook-ca" (some caSecret)).applied ∧
    (∀ res ∈ guardedResources, ∃ w ∈ (validatingWebhookConfiguration sampleCert).Webhooks,
      w.FailurePolicy = some v1.Fail ∧
      ∃ r ∈ w.Rules, ruleNames r "management.cattle.io" "v3" res = true) :=
  ⟨by decide,
   (published_configuration_fail_policy okApplier "cattle-system/cattle-webhook-ca"
      (some caSecret) caSecret (validatingWebhookConfiguration sampleCert) (by decide)).2.2⟩

/-- C10: the secret handler publishes only for the CA secret. When the secret
is nil, or is not named `cattle-webhook-ca`, or holds no bytes under
`tls.crt`, the handler applies nothing and returns the nil secret and the nil
error. Otherwise it applies, owned by the secret, one configuration whose two
webhooks both carry the `tls.crt` bytes of the secret as CA bundle, and
returns the secret itself with the error of the applier. -/
theorem onSecretChange_spec (apply : Applier) (key : String) (secret : Option Secret) :
    ((secret = none ∨
        ∃ s, secret = some s ∧ (s.Name ≠ "cattle-webhook-ca" ∨
          (s.Data.get "tls.crt").getD [] = [])) →
      onSecretChange apply key secret = ⟨none, none, []⟩) ∧
    (∀ s, secret = some s → s.Name = "cattle-webhook-ca" →
      (s.Data.get "tls.crt").getD [] ≠ [] →
      ∃ cfg : ValidatingWebhookConfiguration,
        onSecretChange apply key secret = ⟨some s, apply s cfg, [(s, cfg)]⟩ ∧
        cfg = validatingWebhookConfiguration ((s.Data.get "tls.crt").getD []) ∧
        cfg.Webhooks.length = 2 ∧
        ∀ w ∈ cfg.Webhooks, w.ClientConfig.CABundle = (s.Data.get "tls.crt").getD []) := by
  constructor
  · rintro (h | ⟨s, hs, h⟩)
    · subst h
      rfl
    · subst hs
      rcases h with h | h
      · simp [onSecretChange, caName, h]
      · have hd : tlsCertData s = [] := h
        simp [onSecretChange, hd]
  · intro s hs hname hdata
    subst hs
    have hd : tlsCertData s ≠ [] := hdata
    refine ⟨validatingWebhookConfiguration (tlsCertData s), ?_, rfl, rfl, ?_⟩
    · simp [onSecretChange, caName, hname, hd]
    · simp [validatingWebhookConfiguration, tlsCertData, corev1.TLSCertKey]

/-- Witness of C10: the serving-certificate secret publishes nothing, the CA
secret publishes its certificate. -/
theorem onSecretChange_spec_witness :
    onSecretChange okApplier "cattle-system/cattle-webhook-tls" (some tlsSecret) =
      ⟨none, none, []⟩ ∧
    (∃ cfg : ValidatingWebhookConfiguration,
      onSecretChange okApplier "cattle-system/cattle-webhook-ca" (some caSecret) =
        ⟨some caSecret, okApplier caSecret cfg, [(caSecret, cfg)]⟩ ∧
      cfg = validatingWebhookConfiguration ((caSecret.Data.get "tls.crt").getD []) ∧
      cfg.Webhooks.length = 2 ∧
      ∀ w ∈ cfg.Webhooks, w.ClientConfig.CABundle = (caSecret.Data.get "tls.crt").getD []) :=
  ⟨(onSecretChange_spec okApplier "cattle-system/cattle-webhook-tls" (some tlsSecret)).1
      (Or.inr ⟨tlsSecret, rfl, Or.inl (by decide)⟩),
   (onSecretChange_spec okApplier "cattle-system/cattle-webhook-ca" (some caSecret)).2
      caSecret rfl (by decide) (by decide)⟩

end Webhook
